import Mathlib

/-!
Verification of the ssh-mitm command-line front end (`ssh_proxy_server/cli.py`)
and of the session/relay behaviour its specification describes.

The embedding models:
* the server subcommand's argument declarations (`init_server_parser`) together
  with the argparse semantics they rely on (defaults, `choices` validation,
  `store_true` flags, module options resolving to class objects);
* the process-wide mutable state the CLI touches: the paramiko `Transport`
  class attributes (`run`, `_CLIENT_ID`) and the authenticator class attribute
  `REQUEST_AGENT_BREAKIN`;
* `run_server` (agent-break-in toggle, `SSHProxyServer` construction, banner
  assignment) and `main`'s workaround application and subcommand dispatch;
* components of the repository that are not shipped under `src/`
  (session state machine, channel relay, host-key generation, per-connection
  handshake) are modelled from the specification, each marked as such in its
  doc comment.
-/

namespace SSHMitm

/-- The concrete plugin classes named in `cli.py` (imported at the top of the
file and used as `add_module` defaults), plus a constructor for any other
class a user may select on the command line. -/
inductive ModuleClass where
  | SSHMirrorForwarder
  | SCPStorageForwarder
  | SFTPProxyServerInterface
  | SFTPHandlerStoragePlugin
  | InjectableServerTunnelForwarder
  | ClientTunnelForwarder
  | ServerInterface
  | AuthenticatorPassThrough
  | Session
  | custom (name : String)
deriving DecidableEq

/-- The two possible values of the paramiko `Transport.run` class attribute in
this program: the library original, or `dropbear.transport_run` installed by
`main` (`Transport.run = dropbear.transport_run`). -/
inductive RunMethod where
  | paramikoRun
  | dropbearRun
deriving DecidableEq

/-- The paramiko `Transport` class attributes the CLI mutates: the run-loop
method (`Transport.run`) and the identification banner (`Transport._CLIENT_ID`).
They are class-level attributes, shared by every `Transport` instance in the
process. -/
structure TransportClassState where
  run_method : RunMethod
  client_id : String
deriving DecidableEq

/-- The authenticator class attribute mutated by `run_server`
(`args.authenticator.REQUEST_AGENT_BREAKIN = True`): a class-level boolean,
shared by every instance of the authenticator class. -/
structure AuthenticatorClassState where
  REQUEST_AGENT_BREAKIN : Bool
deriving DecidableEq

/-- The process-wide mutable state touched by `cli.py`: the `Transport` class
attributes and the authenticator class attribute. -/
structure ProcessState where
  transport : TransportClassState
  authClass : AuthenticatorClassState
deriving DecidableEq

/-- Process state at interpreter start: paramiko's own run method and client
id, `REQUEST_AGENT_BREAKIN` unset (falsy class default). -/
def initialProcessState : ProcessState :=
  { transport := { run_method := .paramikoRun, client_id := "paramiko_default" }
    authClass := { REQUEST_AGENT_BREAKIN := false } }

/-- Raw command-line input to the server subcommand: for each option, `none`
means the option was omitted; `store_true` flags are `Bool` (absent = false). -/
structure RawServerArgs where
  listen_port : Option Int
  transparent : Bool
  host_key : Option String
  host_key_algorithm : Option String
  host_key_length : Option Int
  ssh_interface : Option ModuleClass
  scp_interface : Option ModuleClass
  sftp_interface : Option ModuleClass
  sftp_handler : Option ModuleClass
  server_tunnel_interface : Option ModuleClass
  client_tunnel_interface : Option ModuleClass
  auth_interface : Option ModuleClass
  authenticator : Option ModuleClass
  request_agent_breakin : Bool
  banner_name : Option String
  session_class : Option ModuleClass
deriving DecidableEq

/-- A command line that passes no server option at all. -/
def emptyRaw : RawServerArgs :=
  { listen_port := none
    transparent := false
    host_key := none
    host_key_algorithm := none
    host_key_length := none
    ssh_interface := none
    scp_interface := none
    sftp_interface := none
    sftp_handler := none
    server_tunnel_interface := none
    client_tunnel_interface := none
    auth_interface := none
    authenticator := none
    request_agent_breakin := false
    banner_name := none
    session_class := none }

/-- The parsed `argparse.Namespace` produced by the server subcommand, with
every default applied.  `banner_name` keeps its `Option` type because
`run_server` tests `if args.banner_name is not None`. -/
structure ServerArgs where
  listen_port : Int
  transparent : Bool
  host_key : Option String
  host_key_algorithm : String
  host_key_length : Int
  ssh_interface : ModuleClass
  scp_interface : ModuleClass
  sftp_interface : ModuleClass
  sftp_handler : ModuleClass
  server_tunnel_interface : ModuleClass
  client_tunnel_interface : ModuleClass
  auth_interface : ModuleClass
  authenticator : ModuleClass
  request_agent_breakin : Bool
  banner_name : Option String
  session_class : ModuleClass
deriving DecidableEq

/-- The `choices` list of `--host-key-algorithm` in `init_server_parser`. -/
def hostKeyAlgorithmChoices : List String := ["dss", "rsa", "ecdsa", "ed25519"]

/-- Default of `--banner-name`: the f-string `SSHMITM_{version}` built from
`ssh_proxy_server.__version__`. -/
def defaultBanner (version : String) : String := "SSHMITM_" ++ version

/-- Namespace assembly after validation: every omitted option receives the
default declared in `init_server_parser` (`10022`, `2048`, `rsa` handled by the
caller, the plugin class defaults, the banner f-string default). -/
def fillServerArgs (version : String) (raw : RawServerArgs) (alg : String) : ServerArgs :=
  { listen_port := raw.listen_port.getD 10022
    transparent := raw.transparent
    host_key := raw.host_key
    host_key_algorithm := alg
    host_key_length := raw.host_key_length.getD 2048
    ssh_interface := raw.ssh_interface.getD .SSHMirrorForwarder
    scp_interface := raw.scp_interface.getD .SCPStorageForwarder
    sftp_interface := raw.sftp_interface.getD .SFTPProxyServerInterface
    sftp_handler := raw.sftp_handler.getD .SFTPHandlerStoragePlugin
    server_tunnel_interface := raw.server_tunnel_interface.getD .InjectableServerTunnelForwarder
    client_tunnel_interface := raw.client_tunnel_interface.getD .ClientTunnelForwarder
    auth_interface := raw.auth_interface.getD .ServerInterface
    authenticator := raw.authenticator.getD .AuthenticatorPassThrough
    request_agent_breakin := raw.request_agent_breakin
    banner_name := some (raw.banner_name.getD (defaultBanner version))
    session_class := raw.session_class.getD .Session }

/-- Parsing of the server subcommand's arguments: the only validation
`init_server_parser` declares is the `choices` list of `--host-key-algorithm`
(argparse rejects any other supplied value with an `invalid choice` error and
exits before anything runs); an omitted algorithm defaults to `rsa`. -/
def parseServerArgs (version : String) (raw : RawServerArgs) : Except String ServerArgs :=
  match raw.host_key_algorithm with
  | none => .ok (fillServerArgs version raw "rsa")
  | some a =>
    if a ∈ hostKeyAlgorithmChoices then
      .ok (fillServerArgs version raw a)
    else
      .error ("argument --host-key-algorithm: invalid choice: " ++ a)

/-- The keyword arguments `run_server` passes to the `SSHProxyServer`
constructor. -/
structure SSHProxyServer where
  listen_port : Int
  key_file : Option String
  key_algorithm : String
  key_length : Int
  ssh_interface : ModuleClass
  scp_interface : ModuleClass
  sftp_interface : ModuleClass
  sftp_handler : ModuleClass
  server_tunnel_interface : ModuleClass
  client_tunnel_interface : ModuleClass
  authentication_interface : ModuleClass
  authenticator : ModuleClass
  transparent : Bool
deriving DecidableEq

/-- `run_server` as a state transformer: (1) if `--request-agent-breakin` was
given, set the class attribute `REQUEST_AGENT_BREAKIN` on the authenticator
class to `True`; (2) construct one `SSHProxyServer` from the parsed arguments;
(3) if `args.banner_name is not None`, assign it to the `Transport._CLIENT_ID`
class attribute.  Console printing has no modelled effect; `proxy.start()` is
outside `cli.py`. -/
def run_server (args : ServerArgs) (st : ProcessState) : SSHProxyServer × ProcessState :=
  let st1 : ProcessState :=
    if args.request_agent_breakin then
      { st with authClass := { REQUEST_AGENT_BREAKIN := true } }
    else st
  let proxy : SSHProxyServer :=
    { listen_port := args.listen_port
      key_file := args.host_key
      key_algorithm := args.host_key_algorithm
      key_length := args.host_key_length
      ssh_interface := args.ssh_interface
      scp_interface := args.scp_interface
      sftp_interface := args.sftp_interface
      sftp_handler := args.sftp_handler
      server_tunnel_interface := args.server_tunnel_interface
      client_tunnel_interface := args.client_tunnel_interface
      authentication_interface := args.auth_interface
      authenticator := args.authenticator
      transparent := args.transparent }
  let st2 : ProcessState :=
    match args.banner_name with
    | some b => { st1 with transport := { st1.transport with client_id := b } }
    | none => st1
  (proxy, st2)

/-- Parsing followed by `run_server`: an invalid command line never reaches
`run_server`, hence constructs no server. -/
def runServerFromRaw (version : String) (raw : RawServerArgs) (st : ProcessState) :
    Except String (SSHProxyServer × ProcessState) :=
  (parseServerArgs version raw).map (fun a => run_server a st)

/-- True exactly when a parse/run outcome is an argparse error. -/
def isErr {α : Type} : Except String α → Bool
  | .error _ => true
  | .ok _ => false

/-- The workaround step in `main`: unless `--disable-workarounds` was given,
assign `Transport.run = dropbear.transport_run` — a class-attribute assignment
on the library `Transport` class. -/
def applyWorkarounds (disable_workarounds : Bool) (st : ProcessState) : ProcessState :=
  if disable_workarounds then st
  else { st with transport := { st.transport with run_method := .dropbearRun } }

/-- The transport run-loop behaviour a given session observes: paramiko
`Transport` instances look the `run` method up on the `Transport` class, so
every session in the process reads the same class attribute, whichever session
index it carries. -/
def sessionTransportRun (st : ProcessState) (_sessionId : Nat) : RunMethod :=
  st.transport.run_method

/-- The `REQUEST_AGENT_BREAKIN` value a given authenticator instance observes:
no instance in the repository shadows the attribute, so Python attribute
lookup falls back to the shared class attribute for every instance. -/
def authenticatorObserved (st : ProcessState) (_instanceId : Nat) : Bool :=
  st.authClass.REQUEST_AGENT_BREAKIN

/-- Modelled from the spec: the per-connection server-role handshake performed
by the proxy listener (`ssh_proxy_server/server.py` is not under `src/`).
Every accepted connection creates a library transport whose identification
banner is the `Transport._CLIENT_ID` class attribute at that moment, sent
during the handshake before the `Session` is handed off. -/
def handshakeBannerFor (st : ProcessState) (_connId : Nat) : String :=
  st.transport.client_id

/-- Modelled from the spec: host-key generation (the key-handling module of
`ssh_proxy_server` is not under `src/`): the configured key length is used
when generating `dss` and `rsa` keys and ignored for `ecdsa` and `ed25519`
(`host key file, algorithm, key length (rsa/dss only)`). -/
def hostKeyGenBits (algorithm : String) (key_length : Int) : Option Int :=
  if algorithm = "rsa" ∨ algorithm = "dss" then some key_length else none

/-- The subcommand names registered on the subparsers object
(`add_parser('server')`, `add_parser('audit')`). -/
def subcommandChoices : List String := ["server", "audit"]

/-- Subcommand validation by argparse: `subparsers.required = True` makes an
absent subcommand a parse error, and any name not registered with
`add_parser` is an `invalid choice` error. -/
def parseSubcommand : Option String → Except String String
  | none => .error "the following arguments are required: subcommand"
  | some s =>
    if s ∈ subcommandChoices then .ok s
    else .error ("argument subcommand: invalid choice: " ++ s)

/-- Which of the two entry points `main` executed. -/
inductive MainAction where
  | ranServer
  | ranAudit
deriving DecidableEq

/-- The dispatch at the end of `main`: `if args.subparser_name == 'server':`
run `run_server`, `elif args.subparser_name == 'audit':` run `run_audit`,
otherwise nothing runs. -/
def mainDispatch (subparser_name : String) : Option MainAction :=
  if subparser_name = "server" then some .ranServer
  else if subparser_name = "audit" then some .ranAudit
  else none

/-- `main` restricted to subcommand handling: parse the subcommand, then
dispatch.  An `.error` outcome means argument parsing failed (argparse exits,
neither entry point runs); `.ok r` means parsing succeeded and `r` records
which entry point ran (`none` for neither). -/
def cliMain (sub : Option String) : Except String (Option MainAction) :=
  (parseSubcommand sub).map mainDispatch

/-- Modelled from the spec: the Session authentication states relevant to the
attempt bound (the session module of `ssh_proxy_server` is not under `src/`):
`AUTHENTICATING → AUTHENTICATING` on a rejected attempt (counter incremented)
until the bound is exceeded, then `CLOSING`. -/
inductive SessionState where
  | LISTENING_FOR_AUTH
  | AUTHENTICATING
  | AUTHENTICATED
  | UPSTREAM_CONNECTING
  | ACTIVE
  | CLOSING
  | CLOSED
deriving DecidableEq

/-- Modelled from the spec: the authentication-phase portion of a Session —
its state, its rejected-attempt counter, and the configured bound. -/
structure AuthSession where
  state : SessionState
  attempts : Nat
  bound : Nat
deriving DecidableEq

/-- A Session that has just received its first authentication attempt, with
bound `B` and no attempt rejected yet. -/
def freshAuthSession (B : Nat) : AuthSession :=
  { state := .AUTHENTICATING, attempts := 0, bound := B }

/-- Modelled from the spec: one rejected authentication attempt — increment
the counter; stay in `AUTHENTICATING` while the counter has not exceeded the
bound, move to `CLOSING` once it has. -/
def rejectAttempt (s : AuthSession) : AuthSession :=
  let n := s.attempts + 1
  if n > s.bound then { s with attempts := n, state := .CLOSING }
  else { s with attempts := n, state := .AUTHENTICATING }

/-- A run of `k` consecutive rejected attempts. -/
def rejectAttempts (s : AuthSession) : Nat → AuthSession
  | 0 => s
  | k + 1 => rejectAttempt (rejectAttempts s k)

/-- Modelled from the spec: the transport hands a relayed byte stream to the
forwarder as successive buffers of at most `n + 1` bytes (the read loop of the
channel pump; forwarder code is not under `src/`). -/
def chunkStream (n : Nat) : List Nat → List (List Nat)
  | [] => []
  | x :: xs => ((x :: xs).take (n + 1)) :: chunkStream n ((x :: xs).drop (n + 1))
termination_by xs => xs.length
decreasing_by
  simp only [List.length_drop, List.length_cons]
  omega

/-- Modelled from the spec: `onData` of a plain (non-injected) relay forwarder
passes every buffer through unmodified. -/
def onDataPassthrough (buf : List Nat) : List Nat := buf

/-- Modelled from the spec: the byte sequence the receiving side observes on
one channel direction — the forwarded buffers written out in receipt order. -/
def relayObserved (n : Nat) (stream : List Nat) : List Nat :=
  ((chunkStream n stream).map onDataPassthrough).flatten

/-- A parse success determines the namespace: it is `fillServerArgs` at the
algorithm that was validated (or the `rsa` default). -/
theorem parseServerArgs_ok (version : String) (raw : RawServerArgs) (a : ServerArgs)
    (h : parseServerArgs version raw = .ok a) :
    ∃ alg, a = fillServerArgs version raw alg := by
  unfold parseServerArgs at h
  split at h
  · exact ⟨"rsa", (Except.ok.injEq _ _).mp h.symm⟩
  · split at h
    · exact ⟨_, (Except.ok.injEq _ _).mp h.symm⟩
    · simp at h

/-- The proxy constructed by `run_server` is the record of the argument
fields, whatever the process state. -/
theorem run_server_proxy_eq (args : ServerArgs) (st : ProcessState) :
    (run_server args st).1 =
      { listen_port := args.listen_port
        key_file := args.host_key
        key_algorithm := args.host_key_algorithm
        key_length := args.host_key_length
        ssh_interface := args.ssh_interface
        scp_interface := args.scp_interface
        sftp_interface := args.sftp_interface
        sftp_handler := args.sftp_handler
        server_tunnel_interface := args.server_tunnel_interface
        client_tunnel_interface := args.client_tunnel_interface
        authentication_interface := args.auth_interface
        authenticator := args.authenticator
        transparent := args.transparent } := by
  unfold run_server
  cases args.banner_name <;> rfl

/-- C3: for every parsed server invocation, `run_server` constructs exactly one
`SSHProxyServer` and passes it exactly the recognized configuration taken from
the parsed arguments: listen port, transparent flag, host key
file/algorithm/length, the six forwarder/interface selections, the
authentication interface, and the Authenticator implementation. -/
theorem run_server_exact_config (args : ServerArgs) (st : ProcessState) :
    (run_server args st).1 =
      { listen_port := args.listen_port
        key_file := args.host_key
        key_algorithm := args.host_key_algorithm
        key_length := args.host_key_length
        ssh_interface := args.ssh_interface
        scp_interface := args.scp_interface
        sftp_interface := args.sftp_interface
        sftp_handler := args.sftp_handler
        server_tunnel_interface := args.server_tunnel_interface
        client_tunnel_interface := args.client_tunnel_interface
        authentication_interface := args.auth_interface
        authenticator := args.authenticator
        transparent := args.transparent } :=
  run_server_proxy_eq args st

/-- C4: `--host-key-algorithm` accepts exactly `dss`, `rsa`, `ecdsa`,
`ed25519`, defaulting to `rsa` when omitted; any other supplied value fails
argument parsing, so no server is constructed; `--host-key-length` defaults
to `2048` and is used for `rsa` and `dss` keys only. -/
theorem host_key_algorithm_validation (version a : String) (raw : RawServerArgs)
    (st : ProcessState) (l : Int) :
    (raw.host_key_algorithm = none →
      parseServerArgs version raw = .ok (fillServerArgs version raw "rsa"))
  ∧ (raw.host_key_algorithm = some a → a ∈ hostKeyAlgorithmChoices →
      parseServerArgs version raw = .ok (fillServerArgs version raw a))
  ∧ (raw.host_key_algorithm = some a → a ∉ hostKeyAlgorithmChoices →
      isErr (runServerFromRaw version raw st) = true)
  ∧ (raw.host_key_length = none →
      ∀ pa, parseServerArgs version raw = .ok pa → pa.host_key_length = 2048)
  ∧ hostKeyGenBits "rsa" l = some l
  ∧ hostKeyGenBits "dss" l = some l
  ∧ hostKeyGenBits "ecdsa" l = none
  ∧ hostKeyGenBits "ed25519" l = none := by
  refine ⟨?_, ?_, ?_, ?_, by simp [hostKeyGenBits], by simp [hostKeyGenBits],
    by simp [hostKeyGenBits], by simp [hostKeyGenBits]⟩
  · intro h
    simp [parseServerArgs, h]
  · intro h hmem
    simp [parseServerArgs, h, hmem]
  · intro h hmem
    simp [runServerFromRaw, parseServerArgs, h, hmem, isErr, Except.map]
  · intro h pa hok
    obtain ⟨alg, rfl⟩ := parseServerArgs_ok version raw pa hok
    simp [fillServerArgs, h]

/-- Witness for the host-key-algorithm claim at concrete command lines: the
empty command line parses with the defaults, and a command line supplying the
unsupported value `dsa` is rejected before any server is constructed. -/
theorem host_key_algorithm_validation_witness :
    parseServerArgs "1.0" emptyRaw = .ok (fillServerArgs "1.0" emptyRaw "rsa")
  ∧ isErr (runServerFromRaw "1.0"
      { emptyRaw with host_key_algorithm := some "dsa" } initialProcessState) = true :=
  ⟨(host_key_algorithm_validation "1.0" "dsa" emptyRaw initialProcessState 2048).1 rfl,
   (host_key_algorithm_validation "1.0" "dsa"
      { emptyRaw with host_key_algorithm := some "dsa" }
      initialProcessState 2048).2.2.1 rfl (by decide)⟩

/-- C6: every plugin slot is resolved at parse time to the explicitly supplied
class or to the default class declared in `init_server_parser`, and
`run_server` hands exactly those resolved class objects to the
`SSHProxyServer` constructor: the constructed configuration holds concrete
class handles, no further lookup. -/
theorem plugin_resolution_at_construction (version : String) (raw : RawServerArgs)
    (a : ServerArgs) (st : ProcessState)
    (h : parseServerArgs version raw = .ok a) :
    (run_server a st).1.ssh_interface = raw.ssh_interface.getD .SSHMirrorForwarder
  ∧ (run_server a st).1.scp_interface = raw.scp_interface.getD .SCPStorageForwarder
  ∧ (run_server a st).1.sftp_interface = raw.sftp_interface.getD .SFTPProxyServerInterface
  ∧ (run_server a st).1.sftp_handler = raw.sftp_handler.getD .SFTPHandlerStoragePlugin
  ∧ (run_server a st).1.server_tunnel_interface
      = raw.server_tunnel_interface.getD .InjectableServerTunnelForwarder
  ∧ (run_server a st).1.client_tunnel_interface
      = raw.client_tunnel_interface.getD .ClientTunnelForwarder
  ∧ (run_server a st).1.authentication_interface = raw.auth_interface.getD .ServerInterface
  ∧ (run_server a st).1.authenticator = raw.authenticator.getD .AuthenticatorPassThrough := by
  obtain ⟨alg, rfl⟩ := parseServerArgs_ok version raw a h
  rw [run_server_proxy_eq]
  exact ⟨rfl, rfl, rfl, rfl, rfl, rfl, rfl, rfl⟩

/-- Witness for the plugin-resolution claim: on the empty command line the
constructed server receives the default authenticator and shell-forwarder
classes. -/
theorem plugin_resolution_at_construction_witness :
    (run_server (fillServerArgs "1.0" emptyRaw "rsa") initialProcessState).1.authenticator
      = ModuleClass.AuthenticatorPassThrough
  ∧ (run_server (fillServerArgs "1.0" emptyRaw "rsa") initialProcessState).1.ssh_interface
      = ModuleClass.SSHMirrorForwarder := by
  have h := plugin_resolution_at_construction "1.0" emptyRaw
    (fillServerArgs "1.0" emptyRaw "rsa") initialProcessState rfl
  exact ⟨h.2.2.2.2.2.2.2, h.1⟩

/-- C9: invoking the CLI without a subcommand, or with a subcommand other than
`server` or `audit`, fails argument parsing and performs neither action; when
parsing succeeds, exactly one of `run_server` or `run_audit` is executed,
selected by the subcommand name. -/
theorem subcommand_dispatch (s : String) (o : Option String) :
    cliMain none = .error "the following arguments are required: subcommand"
  ∧ (s ≠ "server" → s ≠ "audit" → isErr (cliMain (some s)) = true)
  ∧ cliMain (some "server") = .ok (some .ranServer)
  ∧ cliMain (some "audit") = .ok (some .ranAudit)
  ∧ (∀ r, cliMain o = .ok r →
      r = some MainAction.ranServer ∨ r = some MainAction.ranAudit) := by
  refine ⟨rfl, ?_, rfl, rfl, ?_⟩
  · intro h1 h2
    simp [cliMain, parseSubcommand, subcommandChoices, h1, h2, isErr, Except.map]
  · intro r hr
    cases o with
    | none => simp [cliMain, parseSubcommand, Except.map] at hr
    | some t =>
      by_cases ht : t ∈ subcommandChoices
      · have hr' : mainDispatch t = r := by
          simpa [cliMain, parseSubcommand, ht, Except.map] using hr
        have ht' : t = "server" ∨ t = "audit" := by
          simpa [subcommandChoices] using ht
        rcases ht' with h | h
        · subst h; left; exact hr'.symm
        · subst h; right; exact hr'.symm
      · simp [cliMain, parseSubcommand, ht, Except.map] at hr

/-- Witness for the subcommand-dispatch claim: the unknown subcommand `foo`
fails parsing, and `server` dispatches to `run_server`. -/
theorem subcommand_dispatch_witness :
    isErr (cliMain (some "foo")) = true
  ∧ cliMain (some "server") = .ok (some .ranServer) :=
  ⟨(subcommand_dispatch "foo" none).2.1 (by decide) (by decide),
   (subcommand_dispatch "foo" none).2.2.1⟩

/-- C10: with every option omitted, the server runs with listen port `10022`,
host key length `2048`, transparent mode off, and banner
`SSHMITM_<version>`, which is never `None`, so the banner assignment in
`run_server` is executed: after `run_server` the transport client id is the
default banner. -/
theorem server_defaults (version : String) (st : ProcessState) :
    parseServerArgs version emptyRaw = .ok (fillServerArgs version emptyRaw "rsa")
  ∧ (fillServerArgs version emptyRaw "rsa").listen_port = 10022
  ∧ (fillServerArgs version emptyRaw "rsa").host_key_length = 2048
  ∧ (fillServerArgs version emptyRaw "rsa").transparent = false
  ∧ (fillServerArgs version emptyRaw "rsa").banner_name
      = some ("SSHMITM_" ++ version)
  ∧ (fillServerArgs version emptyRaw "rsa").banner_name ≠ none
  ∧ ((run_server (fillServerArgs version emptyRaw "rsa") st).2).transport.client_id
      = "SSHMITM_" ++ version := by
  refine ⟨rfl, rfl, rfl, rfl, rfl, by simp [fillServerArgs], rfl⟩

/-- C5: for each accepted connection, the server-role handshake uses the
configured banner string — the `--banner-name` override when supplied,
otherwise the `SSHMITM_<version>` default — because `run_server` assigns the
parsed banner to the transport client id consulted by every per-connection
handshake. -/
theorem handshake_uses_configured_banner (version : String) (raw : RawServerArgs)
    (a : ServerArgs) (st : ProcessState) (conn : Nat)
    (h : parseServerArgs version raw = .ok a) :
    handshakeBannerFor ((run_server a st).2) conn
      = raw.banner_name.getD (defaultBanner version) := by
  obtain ⟨alg, rfl⟩ := parseServerArgs_ok version raw a h
  rfl

/-- Witness for the banner claim: with no override the handshake banner is the
default, and with `--banner-name CUSTOM` it is the override. -/
theorem handshake_uses_configured_banner_witness :
    handshakeBannerFor
        ((run_server (fillServerArgs "1.0" emptyRaw "rsa") initialProcessState).2) 0
      = defaultBanner "1.0"
  ∧ handshakeBannerFor
        ((run_server (fillServerArgs "1.0"
            { emptyRaw with banner_name := some "CUSTOM" } "rsa") initialProcessState).2) 0
      = "CUSTOM" := by
  exact ⟨handshake_uses_configured_banner "1.0" emptyRaw _ initialProcessState 0 rfl,
    handshake_uses_configured_banner "1.0"
      { emptyRaw with banner_name := some "CUSTOM" } _ initialProcessState 0 rfl⟩

/-- After `k ≤ B` rejected attempts the Session is still authenticating with
attempt counter `k`. -/
theorem rejectAttempts_le_bound (B k : Nat) (h : k ≤ B) :
    rejectAttempts (freshAuthSession B) k
      = { state := .AUTHENTICATING, attempts := k, bound := B } := by
  induction k with
  | zero => rfl
  | succ n ih =>
    have hn : n ≤ B := Nat.le_of_succ_le h
    have hgt : ¬ (n + 1 > B) := by omega
    simp [rejectAttempts, ih hn, rejectAttempt, hgt]

/-- C7: authentication attempts per Session are bounded: with bound `B`, every
run of `k ≤ B` rejected attempts leaves the Session in `AUTHENTICATING`
(self-loop), and the `(B+1)`-th rejected attempt moves it to `CLOSING`. -/
theorem auth_attempt_bound (B k : Nat) (hk : k ≤ B) :
    (rejectAttempts (freshAuthSession B) k).state = .AUTHENTICATING
  ∧ (rejectAttempts (freshAuthSession B) (B + 1)).state = .CLOSING := by
  constructor
  · rw [rejectAttempts_le_bound B k hk]
  · have hB : B + 1 > B := by omega
    simp [rejectAttempts, rejectAttempts_le_bound B B (Nat.le_refl B), rejectAttempt, hB]

/-- Witness for the attempt bound at `B = 3`: two rejections keep the Session
authenticating, the fourth rejection closes it. -/
theorem auth_attempt_bound_witness :
    (rejectAttempts (freshAuthSession 3) 2).state = SessionState.AUTHENTICATING
  ∧ (rejectAttempts (freshAuthSession 3) 4).state = SessionState.CLOSING := by
  exact auth_attempt_bound 3 2 (by decide)

/-- Reassembling the transport's buffers restores the original stream. -/
theorem chunkStream_flatten (n : Nat) (xs : List Nat) :
    (chunkStream n xs).flatten = xs := by
  induction xs using chunkStream.induct n with
  | case1 => rw [chunkStream]; rfl
  | case2 x xs ih =>
    rw [chunkStream]
    simp only [List.flatten_cons, ih, List.take_append_drop]

/-- C8: for every non-injected channel and every byte sequence relayed in one
direction (delivered to the forwarder as buffers of any positive size), the
receiving side observes the identical byte sequence in the identical order:
the relay is the identity on the direction's byte stream. -/
theorem relay_byte_identity (n : Nat) (stream : List Nat) :
    relayObserved n stream = stream := by
  unfold relayObserved onDataPassthrough
  rw [List.map_id', chunkStream_flatten]

/-- C1 counterexample: the dropbear workaround is applied (default: the
disable flag absent) and the transport run-loop behaviour observed by a
session other than the one it was nominally enabled for changes — the
mutation is process-wide, not per-session. -/
theorem workaround_cross_session_changes :
    sessionTransportRun (applyWorkarounds false initialProcessState) 1
      ≠ sessionTransportRun initialProcessState 1 := by
  decide

/-- C1 amended: the transport workaround is a process-wide mutation: `main`
replaces the library `Transport.run` class attribute whenever
`--disable-workarounds` is absent, after which every session in the process
observes the dropbear run loop; with the flag given the state is untouched;
in all cases any two sessions observe the same run-loop behaviour. -/
theorem workaround_process_wide (d : Bool) (st : ProcessState) (i j : Nat) :
    (d = false →
      ∀ k, sessionTransportRun (applyWorkarounds d st) k = .dropbearRun)
  ∧ (d = true → applyWorkarounds d st = st)
  ∧ sessionTransportRun (applyWorkarounds d st) i
      = sessionTransportRun (applyWorkarounds d st) j := by
  refine ⟨?_, ?_, rfl⟩
  · intro hd k
    subst hd
    rfl
  · intro hd
    subst hd
    rfl

/-- Witness for the amended workaround claim: with workarounds enabled every
session sees the dropbear run loop; with them disabled the state is
unchanged. -/
theorem workaround_process_wide_witness :
    sessionTransportRun (applyWorkarounds false initialProcessState) 7
      = RunMethod.dropbearRun
  ∧ applyWorkarounds true initialProcessState = initialProcessState :=
  ⟨(workaround_process_wide false initialProcessState 0 1).1 rfl 7,
   (workaround_process_wide true initialProcessState 0 1).2.1 rfl⟩

/-- A server invocation passing `--request-agent-breakin` and nothing else. -/
def breakinArgs : ServerArgs :=
  fillServerArgs "1.0" { emptyRaw with request_agent_breakin := true } "rsa"

/-- C2 counterexample: `run_server` with `--request-agent-breakin` assigns the
class-level attribute `REQUEST_AGENT_BREAKIN`, and the value observed by a
different authenticator instance changes — the setting is neither per-session
nor an immutable constructor-set field. -/
theorem agent_breakin_cross_instance_changes :
    authenticatorObserved ((run_server breakinArgs initialProcessState).2) 1
      ≠ authenticatorObserved initialProcessState 1 := by
  decide

/-- C2 amended: the agent-break-in setting is a mutable class-level attribute
of the authenticator class: `run_server` sets it to `True` when
`--request-agent-breakin` is given (before the server starts) and leaves the
class state untouched otherwise, and every authenticator instance in the
process observes the same shared value. -/
theorem agent_breakin_class_level (args : ServerArgs) (st : ProcessState) (i j : Nat) :
    (args.request_agent_breakin = true →
      ∀ k, authenticatorObserved ((run_server args st).2) k = true)
  ∧ (args.request_agent_breakin = false →
      ((run_server args st).2).authClass = st.authClass)
  ∧ authenticatorObserved ((run_server args st).2) i
      = authenticatorObserved ((run_server args st).2) j := by
  refine ⟨?_, ?_, rfl⟩
  · intro hd k
    cases hb : args.banner_name <;>
      simp [run_server, authenticatorObserved, hd, hb]
  · intro hd
    cases hb : args.banner_name <;>
      simp [run_server, authenticatorObserved, hd, hb]

/-- Witness for the amended agent-break-in claim: with the flag, instance 5
observes `True`; without it, the authenticator class state is unchanged. -/
theorem agent_breakin_class_level_witness :
    authenticatorObserved ((run_server breakinArgs initialProcessState).2) 5 = true
  ∧ ((run_server (fillServerArgs "1.0" emptyRaw "rsa") initialProcessState).2).authClass
      = initialProcessState.authClass :=
  ⟨(agent_breakin_class_level breakinArgs initialProcessState 0 1).1 rfl 5,
   (agent_breakin_class_level (fillServerArgs "1.0" emptyRaw "rsa")
      initialProcessState 0 1).2.1 rfl⟩

end SSHMitm
